import Mathlib

/-!
Shallow embedding of the blog data model declared in
`blog_post/blog/models.py` (Lecture code 1) together with the admin
registrations of `blog_post/blog/admin.py` (Lecture code 2), and the
CRUD semantics those declarations induce in the surrounding
object-relational framework.

Timestamps are modelled as natural numbers; uploaded files as their
storage-path strings.  A database state is four lists: the three tables
plus the junction table of the many-to-many `authors` relationship.
-/

/-- Embeds the `Author` model: `first_name` and `last_name` are
`CharField(max_length=100)`, `email` an `EmailField`; `id` is the
auto-assigned surrogate key. -/
structure Author where
  id : Nat
  first_name : String
  last_name : String
  email : String
deriving DecidableEq

/-- Embeds `Author.__str__`: `self.first_name + " " + self.last_name`. -/
def Author.str (a : Author) : String :=
  a.first_name ++ (r" ") ++ a.last_name

/-- Embeds the `BlogPost` model: `title` is `CharField(max_length=255)`,
`text` a `TextField`, `active` a `BooleanField(default=True)`,
`create_date` a `DateTimeField(auto_now_add=True, null=True)`,
`update_date` a `DateTimeField(auto_now=True, null=True)`,
`website` a `URLField(null=True)`, `document` a
`FileField(null=True, blank=True)`, `deleted` a
`BooleanField(default=False)`.  `id` is the surrogate key. -/
structure BlogPost where
  id : Nat
  title : String
  text : String
  active : Bool
  create_date : Option Nat
  update_date : Option Nat
  website : Option String
  document : Option String
  deleted : Bool
deriving DecidableEq

/-- Embeds the `BlogPostImage` model: a required `ForeignKey` to
`BlogPost` (`on_delete=CASCADE`) and an `ImageField`. -/
structure BlogPostImage where
  id : Nat
  blog_post : Nat
  image : String
deriving DecidableEq

/-- A database state: the three tables of the schema plus the junction
table of the many-to-many `BlogPost.authors` relationship (pairs of
`(author id, blog post id)`), and the next fresh surrogate key for
blog posts. -/
structure DB where
  authors : List Author
  posts : List BlogPost
  images : List BlogPostImage
  authorPost : List (Nat × Nat)
  nextPostId : Nat
deriving DecidableEq

/-- The data entered on the admin creation form for a `BlogPost`:
every concrete field of the model plus the selected set of authors of
the many-to-many relationship. -/
structure PostInput where
  title : String
  text : String
  active : Bool
  website : Option String
  document : Option String
  deleted : Bool
  authors : List Nat
deriving DecidableEq

/-- Does the first character list start the second one?  Used to test a
URL string for a recognised scheme. -/
def listStartsWith : List Char → List Char → Bool
  | [], _ => true
  | _ :: _, [] => false
  | c :: cs, d :: ds => c == d && listStartsWith cs ds

/-- Modelled from the spec: the framework's URL-format validator
("invalid email/URL format" errors are delegated to the framework),
abstracted to: the string starts with a recognised scheme followed by
a nonempty remainder. -/
def isValidURL (s : String) : Bool :=
  (listStartsWith (r"http://").data s.data && 7 < s.length) ||
  (listStartsWith (r"https://").data s.data && 8 < s.length) ||
  (listStartsWith (r"ftp://").data s.data && 6 < s.length) ||
  (listStartsWith (r"ftps://").data s.data && 7 < s.length)

/-- Does some persisted post already carry this `(title, text)` pair?
This is the check induced by `BlogPost.Meta.unique_together =
[['title', 'text']]`. -/
def duplicatePair (posts : List BlogPost) (t x : String) : Bool :=
  posts.any (fun p => p.title == t && p.text == x)

/-- The field-level and uniqueness errors that the framework surfaces
as form validation errors on the `BlogPost` admin form. -/
inductive FieldError where
  | blankTitle
  | titleTooLong
  | blankText
  | requiredWebsite
  | websiteTooLong
  | invalidWebsite
  | requiredAuthors
  | invalidAuthorChoice
  | duplicateTitleText
deriving DecidableEq

/-- Is every selected author id the id of a persisted `Author` row?
This is the valid-choice check of the form's multiple-choice field for
the many-to-many `authors` relationship, also enforced by the junction
table's foreign-key constraint. -/
def validChoices (authors : List Author) (sel : List Nat) : Bool :=
  sel.all (fun a => authors.any (fun au => au.id == a))

/-- Modelled from the spec: the framework's admin-form validation of a
`BlogPost`, induced by the field declarations in `models.py`:
`title` and `text` are required (no `blank=True`) with
`max_length=255` on `title`; `website` is `URLField(null=True)` with
no `blank=True`, so the form requires a value and validates its format
(default `max_length=200`); `authors` is a `ManyToManyField` with no
`blank=True`, so the form requires at least one author and each
selected author must be an existing choice; finally the
`unique_together = [['title', 'text']]` constraint is checked against
the persisted posts. -/
def validatePost (authors : List Author) (posts : List BlogPost)
    (inp : PostInput) : Option FieldError :=
  if inp.title.length = 0 then some FieldError.blankTitle
  else if 255 < inp.title.length then some FieldError.titleTooLong
  else if inp.text.length = 0 then some FieldError.blankText
  else
    match inp.website with
    | none => some FieldError.requiredWebsite
    | some u =>
      if 200 < u.length then some FieldError.websiteTooLong
      else if isValidURL u = false then some FieldError.invalidWebsite
      else if inp.authors = [] then some FieldError.requiredAuthors
      else if validChoices authors inp.authors = false then
        some FieldError.invalidAuthorChoice
      else if duplicatePair posts inp.title inp.text = true then
        some FieldError.duplicateTitleText
      else none

/-- Creation of a `BlogPost` through the admin: validate the form and,
on success, persist a new row with a fresh surrogate key,
`create_date` and `update_date` both set to the current time
(`auto_now_add` and `auto_now`), and one junction row per selected
author.  On a validation error nothing is persisted. -/
def createPost (db : DB) (inp : PostInput) (now : Nat) : Except FieldError DB :=
  match validatePost db.authors db.posts inp with
  | some e => Except.error e
  | none =>
    let newPost : BlogPost :=
      { id := db.nextPostId
        title := inp.title
        text := inp.text
        active := inp.active
        create_date := some now
        update_date := some now
        website := inp.website
        document := inp.document
        deleted := inp.deleted }
    Except.ok { db with
                posts := db.posts ++ [newPost],
                authorPost := db.authorPost ++ inp.authors.map (fun a => (a, db.nextPostId)),
                nextPostId := db.nextPostId + 1 }

/-- The stored state after a creation attempt: the new state on
success, the unchanged state on a validation error. -/
def createOrKeep (db : DB) (inp : PostInput) (now : Nat) : DB :=
  match createPost db inp now with
  | Except.ok db' => db'
  | Except.error _ => db

/-- Saving an already-persisted `BlogPost`: `auto_now` refreshes
`update_date` to the current time, `auto_now_add` leaves `create_date`
untouched, and no other field is altered by the timestamp machinery. -/
def savePost (p : BlogPost) (now : Nat) : BlogPost :=
  { p with update_date := some now }

/-- Direct persistence of a `BlogPost` row at the storage layer,
subject to the table's own constraints: the `UNIQUE (title, text)`
constraint of `unique_together` rejects a duplicate pair, while
`website` and the dates are nullable columns, so a row may be stored
with `none` in them.  No foreign key leaves the posts table itself. -/
def dbInsertPost (db : DB) (p : BlogPost) : Option DB :=
  if duplicatePair db.posts p.title p.text = true then none
  else some { db with posts := db.posts ++ [p] }

/-- Deleting a `BlogPost`: the row is removed, every `BlogPostImage`
whose `blog_post` foreign key references it is removed
(`on_delete=CASCADE`), and its junction rows of the many-to-many
relationship are cleaned up. -/
def deleteBlogPost (db : DB) (pid : Nat) : DB :=
  { db with
    posts := db.posts.filter (fun p => p.id != pid),
    images := db.images.filter (fun im => im.blog_post != pid),
    authorPost := db.authorPost.filter (fun ap => ap.2 != pid) }

/-- Deleting an `Author`: the row is removed and its junction rows of
the many-to-many relationship are cleaned up; nothing references an
`Author` through a cascading foreign key, so no other table is
touched. -/
def deleteAuthor (db : DB) (aid : Nat) : DB :=
  { db with
    authors := db.authors.filter (fun a => a.id != aid),
    authorPost := db.authorPost.filter (fun ap => ap.1 != aid) }

/-- The authors currently associated with a given post, read off the
junction table. -/
def postAuthors (db : DB) (pid : Nat) : List Nat :=
  (db.authorPost.filter (fun ap => ap.2 == pid)).map Prod.fst

/-- The posts currently associated with a given author, read off the
junction table. -/
def authorPosts (db : DB) (aid : Nat) : List Nat :=
  (db.authorPost.filter (fun ap => ap.1 == aid)).map Prod.snd

/-- The listing order declared by `BlogPost.Meta.ordering = ['title']`:
posts compare by lexicographic order of their titles. -/
def postLe (a b : BlogPost) : Prop :=
  a.title ≤ b.title

instance : DecidableRel postLe :=
  fun a b => inferInstanceAs (Decidable (a.title ≤ b.title))

instance : IsTotal BlogPost postLe :=
  ⟨fun a b => le_total a.title b.title⟩

instance : IsTrans BlogPost postLe :=
  ⟨fun _ _ _ h h' => le_trans h h'⟩

/-- The default listing of `BlogPost` records: the persisted rows
ordered by `Meta.ordering = ['title']`. -/
def listPosts (db : DB) : List BlogPost :=
  db.posts.insertionSort postLe

/-- The invariant induced by `unique_together = [['title', 'text']]`:
any two distinct persisted posts differ in title or in text. -/
def wfPosts (posts : List BlogPost) : Prop :=
  posts.Pairwise (fun p q => p.title ≠ q.title ∨ p.text ≠ q.text)

instance (posts : List BlogPost) : Decidable (wfPosts posts) :=
  inferInstanceAs (Decidable (posts.Pairwise _))

/-- The three record types of the schema, as referred to by
`admin.py`. -/
inductive ModelName where
  | authorModel
  | blogPostModel
  | blogPostImageModel
deriving DecidableEq

/-- One `admin.site.register(...)` call: which model it registers and
whether a customised admin class (custom forms, filters or display
fields) accompanies it — `false` means the generic default admin with
its standard create/list/edit/delete screens. -/
structure AdminRegistration where
  model : ModelName
  customized : Bool
deriving DecidableEq

/-- Embeds `admin.py` of Lecture code 2: `admin.site.register(BlogPost)`,
`admin.site.register(BlogPostImage)`, `admin.site.register(Author)`,
each with no second argument, hence no customisation. -/
def adminRegistrations : List AdminRegistration :=
  [⟨ModelName.blogPostModel, false⟩,
   ⟨ModelName.blogPostImageModel, false⟩,
   ⟨ModelName.authorModel, false⟩]

/-- A sample persisted post, used by the concrete instances below. -/
def samplePost : BlogPost :=
  { id := 0
    title := (r"First")
    text := (r"Hello")
    active := true
    create_date := some 1
    update_date := some 1
    website := some (r"http://a.ge")
    document := none
    deleted := false }

/-- A sample database state: two authors, one post, one image, one
junction row. -/
def sampleDB : DB :=
  { authors := [{ id := 0
                  first_name := (r"Ana")
                  last_name := (r"Beridze")
                  email := (r"ana@btu.edu.ge") },
                { id := 1
                  first_name := (r"Nino")
                  last_name := (r"Japaridze")
                  email := (r"nino@btu.edu.ge") }]
    posts := [samplePost]
    images := [{ id := 0, blog_post := 0, image := (r"blog_image/a.png") }]
    authorPost := [(0, 0)]
    nextPostId := 1 }

/-- Form data whose `(title, text)` pair duplicates `samplePost`. -/
def dupInput : PostInput :=
  { title := (r"First")
    text := (r"Hello")
    active := true
    website := some (r"http://a.ge")
    document := none
    deleted := false
    authors := [0] }

/-- Form data with a fresh `(title, text)` pair and two authors. -/
def freshInput : PostInput :=
  { dupInput with title := (r"Second"), text := (r"World"), authors := [0, 1] }

/-- Form data whose title has 256 characters. -/
def longTitleInput : PostInput :=
  { freshInput with title := String.mk (List.replicate 256 'a') }

/-- Otherwise-valid form data that leaves the website empty. -/
def noWebsiteInput : PostInput :=
  { freshInput with website := none }

/-- Otherwise-valid form data that selects no author. -/
def noAuthorsInput : PostInput :=
  { freshInput with authors := [] }

/-- A row with no website and a fresh `(title, text)` pair, storable
directly at the storage layer. -/
def nullWebsitePost : BlogPost :=
  { samplePost with title := (r"Stored"), text := (r"Later"), website := none }

theorem ifChain_eq_none {α : Type} {c : Prop} [Decidable c] {a : α}
    {y : Option α} : (if c then some a else y) = none ↔ ¬c ∧ y = none := by
  by_cases h : c <;> simp [h]

/-- Characterisation of a successful `BlogPost` form validation. -/
theorem validatePost_eq_none (authors : List Author) (posts : List BlogPost)
    (inp : PostInput) :
    validatePost authors posts inp = none ↔
      inp.title.length ≠ 0 ∧ inp.title.length ≤ 255 ∧ inp.text.length ≠ 0 ∧
      (∃ u, inp.website = some u ∧ u.length ≤ 200 ∧ isValidURL u = true) ∧
      inp.authors ≠ [] ∧ validChoices authors inp.authors = true ∧
      duplicatePair posts inp.title inp.text = false := by
  cases hw : inp.website with
  | none =>
    simp [validatePost, hw, ifChain_eq_none]
  | some u =>
    simp [validatePost, hw, ifChain_eq_none, Nat.not_lt, Bool.not_eq_false,
      Bool.not_eq_true]
    tauto

/-- C2: deleting a BlogPost removes exactly the BlogPostImage rows whose
`blog_post` reference points to it — afterwards no image referencing
the deleted post remains, every other image survives, and the post row
itself is gone. -/
theorem deleteBlogPost_cascades_images (db : DB) (pid : Nat) :
    (∀ img : BlogPostImage, img ∈ (deleteBlogPost db pid).images ↔
      img ∈ db.images ∧ img.blog_post ≠ pid) ∧
    (∀ p : BlogPost, p ∈ (deleteBlogPost db pid).posts ↔
      p ∈ db.posts ∧ p.id ≠ pid) := by
  constructor <;> intro x <;>
    simp [deleteBlogPost, List.mem_filter, bne_iff_ne]

/-- C5: the default listing of BlogPost records is a permutation of the
persisted rows in which titles appear in ascending lexicographic
order. -/
theorem listPosts_sorted_by_title (db : DB) :
    List.Pairwise (fun a b : BlogPost => a.title ≤ b.title) (listPosts db) ∧
    List.Perm (listPosts db) db.posts :=
  ⟨List.sorted_insertionSort postLe db.posts,
   List.perm_insertionSort postLe db.posts⟩

/-- C8: deleting an Author removes only that Author row and its rows in
the author–post junction table; the BlogPost and BlogPostImage tables
are untouched. -/
theorem deleteAuthor_frame (db : DB) (aid : Nat) :
    (deleteAuthor db aid).posts = db.posts ∧
    (deleteAuthor db aid).images = db.images ∧
    (∀ a : Author, a ∈ (deleteAuthor db aid).authors ↔
      a ∈ db.authors ∧ a.id ≠ aid) ∧
    (∀ ap : Nat × Nat, ap ∈ (deleteAuthor db aid).authorPost ↔
      ap ∈ db.authorPost ∧ ap.1 ≠ aid) := by
  refine ⟨rfl, rfl, ?_, ?_⟩ <;> intro x <;>
    simp [deleteAuthor, List.mem_filter, bne_iff_ne]

/-- C9: each of the three record types is registered with the admin
interface exactly once, and every registration is uncustomised (the
generic default admin with its standard CRUD screens). -/
theorem admin_registers_each_model_once :
    adminRegistrations.countP (fun r => r.model == ModelName.authorModel) = 1 ∧
    adminRegistrations.countP (fun r => r.model == ModelName.blogPostModel) = 1 ∧
    adminRegistrations.countP (fun r => r.model == ModelName.blogPostImageModel) = 1 ∧
    adminRegistrations.all (fun r => !r.customized) = true := by
  decide

/-- C10: the string representation of an Author is its first name, a
single space, and its last name. -/
theorem author_str_eq (a : Author) :
    Author.str a = a.first_name ++ (r" ") ++ a.last_name :=
  rfl

/-- C3: `create_date` is unchanged by any sequence of saves
(`auto_now_add`), while every save stamps `update_date` with the
current time (`auto_now`), so it changes whenever the stored value
differs from the current time. -/
theorem create_date_fixed_update_date_refreshed (p : BlogPost)
    (times : List Nat) :
    (times.foldl savePost p).create_date = p.create_date ∧
    (∀ now, (savePost p now).update_date = some now) ∧
    (∀ now, p.update_date ≠ some now →
      (savePost p now).update_date ≠ p.update_date) := by
  refine ⟨?_, fun now => rfl, fun now h h' => h ?_⟩
  · induction times generalizing p with
    | nil => rfl
    | cons t ts ih => simpa [savePost] using ih (savePost p t)
  · exact h'.symm

/-- C3 witness: a concrete save at time 2 stamps `update_date` and
changes it, since the stored stamp was 1. -/
theorem create_date_fixed_update_date_refreshed_witness :
    samplePost.update_date ≠ some 2 ∧
    (savePost samplePost 2).update_date ≠ samplePost.update_date :=
  ⟨by decide,
   (create_date_fixed_update_date_refreshed samplePost [2]).2.2 2 (by decide)⟩

/-- C4: a title longer than 255 characters is rejected by validation
with a field-level error and nothing is persisted. -/
theorem long_title_fails_validation (db : DB) (inp : PostInput) (now : Nat)
    (h : 255 < inp.title.length) :
    (∃ e, createPost db inp now = Except.error e) ∧
    createOrKeep db inp now = db := by
  have h0 : ¬inp.title.length = 0 := by omega
  have hv : validatePost db.authors db.posts inp = some FieldError.titleTooLong := by
    simp [validatePost, h0, h]
  exact ⟨⟨FieldError.titleTooLong, by simp [createPost, hv]⟩,
    by simp [createOrKeep, createPost, hv]⟩

set_option maxRecDepth 4000 in
/-- C4 witness: a concrete 256-character title is rejected and the
sample database is left unchanged. -/
theorem long_title_fails_validation_witness :
    255 < longTitleInput.title.length ∧
    ((∃ e, createPost sampleDB longTitleInput 5 = Except.error e) ∧
      createOrKeep sampleDB longTitleInput 5 = sampleDB) :=
  ⟨by decide, long_title_fails_validation sampleDB longTitleInput 5 (by decide)⟩

/-- C1: under the `unique_together = [['title', 'text']]` constraint,
a successful creation preserves pairwise distinctness of the
`(title, text)` pairs of the persisted posts, and an attempt to create
a post duplicating an existing `(title, text)` pair fails with a
validation error and leaves the stored state unchanged. -/
theorem title_text_pair_unique (db : DB) (inp : PostInput) (now : Nat) :
    (wfPosts db.posts →
      ∀ db', createPost db inp now = Except.ok db' → wfPosts db'.posts) ∧
    ((∃ p ∈ db.posts, p.title = inp.title ∧ p.text = inp.text) →
      (∃ e, createPost db inp now = Except.error e) ∧
      createOrKeep db inp now = db) := by
  constructor
  · intro hwf db' hok
    cases hv : validatePost db.authors db.posts inp with
    | some e => simp [createPost, hv] at hok
    | none =>
      have hdup : duplicatePair db.posts inp.title inp.text = false :=
        ((validatePost_eq_none db.authors db.posts inp).mp hv).2.2.2.2.2.2
      have hnp : ∀ p ∈ db.posts, ¬(p.title = inp.title ∧ p.text = inp.text) := by
        intro p hp hc
        have := List.any_eq_false.mp hdup p hp
        simp [hc.1, hc.2] at this
      simp [createPost, hv] at hok
      rw [← hok]
      refine List.pairwise_append.mpr ⟨hwf, List.pairwise_singleton _ _, ?_⟩
      intro p hp q hq
      rw [List.mem_singleton] at hq
      subst hq
      rcases not_and_or.mp (hnp p hp) with h | h
      · exact Or.inl h
      · exact Or.inr h
  · intro hex
    have hdup : duplicatePair db.posts inp.title inp.text = true := by
      rcases hex with ⟨p, hp, h1, h2⟩
      refine List.any_eq_true.mpr ⟨p, hp, ?_⟩
      simp [h1, h2]
    cases hv : validatePost db.authors db.posts inp with
    | some e =>
      exact ⟨⟨e, by simp [createPost, hv]⟩,
        by simp [createOrKeep, createPost, hv]⟩
    | none =>
      have hfalse : duplicatePair db.posts inp.title inp.text = false :=
        ((validatePost_eq_none db.authors db.posts inp).mp hv).2.2.2.2.2.2
      rw [hdup] at hfalse
      cases hfalse

/-- C1 witness: the sample database satisfies the invariant, and a
concrete duplicate of the sample post's `(title, text)` pair is
rejected without changing the state. -/
theorem title_text_pair_unique_witness :
    (∃ p ∈ sampleDB.posts, p.title = dupInput.title ∧ p.text = dupInput.text) ∧
    ((∃ e, createPost sampleDB dupInput 9 = Except.error e) ∧
      createOrKeep sampleDB dupInput 9 = sampleDB) :=
  ⟨by decide, (title_text_pair_unique sampleDB dupInput 9).2 (by decide)⟩

theorem junction_new_rows (L : List Nat) (nid : Nat) :
    ((L.map (fun a => (a, nid))).filter (fun ap => ap.2 == nid)).map Prod.fst
      = L := by
  induction L with
  | nil => rfl
  | cons a as ih => simp [List.filter_cons, ih]

theorem junction_other_author (L : List Nat) (nid aid : Nat) (h : aid ∉ L) :
    (L.map (fun a => (a, nid))).filter (fun ap => ap.1 == aid) = [] := by
  induction L with
  | nil => rfl
  | cons a as ih =>
    simp [List.mem_cons, not_or] at h
    have h1 : ¬(a = aid) := fun hc => h.1 hc.symm
    simp [List.filter_cons, h1, ih h.2]

/-- C6 counterexample: form data that is valid in every respect except
that it selects no author is rejected — the `authors` many-to-many
field carries no `blank=True`, so the admin form requires at least one
author — and the stored state is unchanged. -/
theorem zero_authors_creation_rejected :
    createPost sampleDB noAuthorsInput 9 = Except.error FieldError.requiredAuthors ∧
    createOrKeep sampleDB noAuthorsInput 9 = sampleDB :=
  ⟨rfl, rfl⟩

/-- C6 amended: the association is many-to-many with no upper bound —
any nonempty selection of existing authors is accepted as-is; the form
requires at least one author, and every author accepted by validation
is an existing choice; authors outside the selection keep their post
sets (in particular an author may have zero posts). -/
theorem many_to_many_unbounded (db : DB) (inp : PostInput) (now : Nat)
    (hv : validatePost db.authors db.posts inp = none)
    (hfresh : ∀ ap ∈ db.authorPost, ap.2 ≠ db.nextPostId) :
    inp.authors ≠ [] ∧
    (∀ a ∈ inp.authors, ∃ au ∈ db.authors, au.id = a) ∧
    ∃ db', createPost db inp now = Except.ok db' ∧
      postAuthors db' db.nextPostId = inp.authors ∧
      ∀ aid, aid ∉ inp.authors → authorPosts db' aid = authorPosts db aid := by
  have hne : inp.authors ≠ [] :=
    ((validatePost_eq_none db.authors db.posts inp).mp hv).2.2.2.2.1
  have hchoice : ∀ a ∈ inp.authors, ∃ au ∈ db.authors, au.id = a := by
    have hvc : validChoices db.authors inp.authors = true :=
      ((validatePost_eq_none db.authors db.posts inp).mp hv).2.2.2.2.2.1
    simpa [validChoices, List.all_eq_true, List.any_eq_true] using hvc
  have hnil : db.authorPost.filter (fun ap => ap.2 == db.nextPostId) = [] := by
    rw [List.filter_eq_nil_iff]
    intro ap hap
    simpa using hfresh ap hap
  rcases hc : createPost db inp now with e | db'
  · simp [createPost, hv] at hc
  · refine ⟨hne, hchoice, db', rfl, ?_, ?_⟩
    · simp [createPost, hv] at hc
      rw [← hc]
      simp [postAuthors, List.filter_append, hnil, junction_new_rows]
    · intro aid haid
      simp [createPost, hv] at hc
      rw [← hc]
      simp [authorPosts, List.filter_append,
        junction_other_author inp.authors db.nextPostId aid haid]

/-- C6 witness: creating the sample fresh post with both persisted
authors selected succeeds, records exactly those two junction rows,
and leaves every other author's posts untouched. -/
theorem many_to_many_unbounded_witness :
    validatePost sampleDB.authors sampleDB.posts freshInput = none ∧
    (∀ ap ∈ sampleDB.authorPost, ap.2 ≠ sampleDB.nextPostId) ∧
    (freshInput.authors ≠ [] ∧
      (∀ a ∈ freshInput.authors, ∃ au ∈ sampleDB.authors, au.id = a) ∧
      ∃ db', createPost sampleDB freshInput 7 = Except.ok db' ∧
        postAuthors db' sampleDB.nextPostId = freshInput.authors ∧
        ∀ aid, aid ∉ freshInput.authors →
          authorPosts db' aid = authorPosts sampleDB aid) :=
  ⟨by decide, by decide,
   many_to_many_unbounded sampleDB freshInput 7 (by decide) (by decide)⟩

/-- C7 counterexample: form data that is valid in every respect except
that it supplies no website is rejected — `website` is
`URLField(null=True)` with no `blank=True`, so the admin form requires
a value — and the stored state is unchanged. -/
theorem no_website_creation_rejected :
    createPost sampleDB noWebsiteInput 9 = Except.error FieldError.requiredWebsite ∧
    createOrKeep sampleDB noWebsiteInput 9 = sampleDB :=
  ⟨rfl, rfl⟩

/-- C7 amended: the `website` column is nullable, so a row with no
website can be stored directly subject only to the storage
constraints, but form validation requires a value (the field carries
no `blank=True`), and a supplied value that is not a well-formed URL
is rejected with the state unchanged. -/
theorem website_nullable_but_form_required (db : DB) (inp : PostInput)
    (now : Nat) (q : BlogPost)
    (h0 : inp.title.length ≠ 0) (h1 : inp.title.length ≤ 255)
    (h2 : inp.text.length ≠ 0) :
    (inp.website = none →
      createPost db inp now = Except.error FieldError.requiredWebsite ∧
      createOrKeep db inp now = db) ∧
    (∀ u, inp.website = some u → isValidURL u = false →
      (∃ e, createPost db inp now = Except.error e) ∧
      createOrKeep db inp now = db) ∧
    (q.website = none → duplicatePair db.posts q.title q.text = false →
      ∃ db'', dbInsertPost db q = some db'' ∧ q ∈ db''.posts) := by
  have h1' : ¬255 < inp.title.length := by omega
  refine ⟨fun hw => ?_, fun u hw hbad => ?_, fun _ hnd => ?_⟩
  · have hv : validatePost db.authors db.posts inp
        = some FieldError.requiredWebsite := by
      simp [validatePost, h0, h1', h2, hw]
    exact ⟨by simp [createPost, hv], by simp [createOrKeep, createPost, hv]⟩
  · by_cases hu : 200 < u.length
    · have hv : validatePost db.authors db.posts inp
          = some FieldError.websiteTooLong := by
        simp [validatePost, h0, h1', h2, hw, hu]
      exact ⟨⟨FieldError.websiteTooLong, by simp [createPost, hv]⟩,
        by simp [createOrKeep, createPost, hv]⟩
    · have hv : validatePost db.authors db.posts inp
          = some FieldError.invalidWebsite := by
        simp [validatePost, h0, h1', h2, hw, hu, hbad]
      exact ⟨⟨FieldError.invalidWebsite, by simp [createPost, hv]⟩,
        by simp [createOrKeep, createPost, hv]⟩
  · refine ⟨{ db with posts := db.posts ++ [q] }, ?_, ?_⟩
    · simp [dbInsertPost, hnd]
    · simp

/-- C7 witness: the concrete no-website form data is rejected with the
required-field error and the sample database is unchanged, while a
concrete row with no website and a fresh pair is accepted by the
storage-level insert. -/
theorem website_nullable_but_form_required_witness :
    noWebsiteInput.title.length ≠ 0 ∧ noWebsiteInput.title.length ≤ 255 ∧
    noWebsiteInput.text.length ≠ 0 ∧ noWebsiteInput.website = none ∧
    nullWebsitePost.website = none ∧
    duplicatePair sampleDB.posts nullWebsitePost.title nullWebsitePost.text
      = false ∧
    (createPost sampleDB noWebsiteInput 7 = Except.error FieldError.requiredWebsite ∧
      createOrKeep sampleDB noWebsiteInput 7 = sampleDB) ∧
    (∃ db'', dbInsertPost sampleDB nullWebsitePost = some db'' ∧
      nullWebsitePost ∈ db''.posts) :=
  ⟨by decide, by decide, by decide, by decide, by decide, by decide,
   (website_nullable_but_form_required sampleDB noWebsiteInput 7 nullWebsitePost
      (by decide) (by decide) (by decide)).1 (by decide),
   (website_nullable_but_form_required sampleDB noWebsiteInput 7 nullWebsitePost
      (by decide) (by decide) (by decide)).2.2 (by decide) (by decide)⟩
